import Mathlib

/-!
Verification of the mcp-server-hub HTTP service (`src/python/app/main.py`).

The program is a FastAPI application with two registered routes:

* `GET /`        → handler `hello_work`, returning `{"message": "Hello, work"}`;
* `GET /status`  → handler `status`, returning a `StatusResponse` with
  `status = "ok"`, `uptime_seconds = time.time() - start_time`, `pid = os.getpid()`.

`start_time = time.time()` is evaluated once, at module import (process start).

Shallow embedding: clock readings are rationals supplied by the environment
(one reading per request, the value `time.time()` returns inside the handler);
the process identifier is the OS-assigned pid, fixed for the process lifetime.
The framework's dispatch (route matching and the not-found fallback) is not part
of this repository; it is modelled from the spec: requests matching a registered
method+path go to that handler, everything else gets the standard HTTP 404
not-found response with a framework-defined body.
-/

/-- The pydantic model `StatusResponse` (main.py lines 10–13):
fields `status : str`, `uptime_seconds : float`, `pid : int`.
Floats are modelled as rationals. -/
structure StatusResponse where
  status : String
  uptime_seconds : ℚ
  pid : ℤ
deriving DecidableEq

/-- An HTTP response body.  `messageObj m` is the JSON object `{"message": m}`
returned by `hello_work`; `statusObj s` is the serialized `StatusResponse`;
`frameworkNotFound` is the framework-defined generic not-found payload. -/
inductive Body where
  | messageObj (message : String)
  | statusObj (s : StatusResponse)
  | frameworkNotFound
deriving DecidableEq

/-- An HTTP response: status code and body. -/
structure Response where
  statusCode : ℕ
  body : Body
deriving DecidableEq

/-- An HTTP request, as far as routing observes it: method and path. -/
structure Request where
  method : String
  path : String
deriving DecidableEq

/-- Process-wide state: `start_time` (main.py line 16, captured once at module
import) and the OS-assigned process identifier reported by `os.getpid()`,
constant for the process lifetime. -/
structure ProcessState where
  start_time : ℚ
  pid : ℤ
deriving DecidableEq

/-- Process start (main.py line 16): `start_time = time.time()` is captured
once, from the clock reading `t0` at module import; the OS assigns the pid. -/
def initProcess (t0 : ℚ) (pid : ℤ) : ProcessState :=
  { start_time := t0, pid := pid }

/-- Handler `hello_work` for `GET /` (main.py lines 19–21):
`return {"message": "Hello, work"}`, serialized with HTTP 200. -/
def hello_work : Response :=
  { statusCode := 200, body := Body.messageObj "Hello, work" }

/-- Handler `status` for `GET /status` (main.py lines 24–27):
`uptime = time.time() - start_time`;
`return StatusResponse(status="ok", uptime_seconds=uptime, pid=os.getpid())`.
`now` is the clock reading `time.time()` returns inside the handler. -/
def status (start_time : ℚ) (now : ℚ) (pid : ℤ) : StatusResponse :=
  { status := "ok", uptime_seconds := now - start_time, pid := pid }

/-- The FastAPI application `app` (main.py line 7) with its two registered
routes, dispatching one request.  Dispatch itself is the framework's; modelled
from the spec: `GET /` → `hello_work`, `GET /status` → `status` (HTTP 200),
any other method+path → HTTP 404 with the framework's not-found body.
Returns the response together with the process state after handling
(the handlers mutate nothing, so the state is returned unchanged). -/
def app (p : ProcessState) (req : Request) (now : ℚ) : Response × ProcessState :=
  if req.method = "GET" ∧ req.path = "/" then
    (hello_work, p)
  else if req.method = "GET" ∧ req.path = "/status" then
    ({ statusCode := 200, body := Body.statusObj (status p.start_time now p.pid) }, p)
  else
    ({ statusCode := 404, body := Body.frameworkNotFound }, p)

/-- Serve a sequence of requests within one process lifetime, each with its
clock reading, threading the process state through; returns the responses in
order and the final process state. -/
def run (p : ProcessState) : List (Request × ℚ) → List Response × ProcessState
  | [] => ([], p)
  | (req, t) :: rest =>
      let step := app p req t
      let tail := run step.2 rest
      (step.1 :: tail.1, tail.2)

/-- Dispatching a single request never changes the process state. -/
theorem app_snd (p : ProcessState) (req : Request) (now : ℚ) :
    (app p req now).2 = p := by
  unfold app
  split
  · rfl
  · split <;> rfl

/-- Serving any sequence of requests never changes the process state. -/
theorem run_snd (p : ProcessState) (trace : List (Request × ℚ)) :
    (run p trace).2 = p := by
  induction trace generalizing p with
  | nil => rfl
  | cons head rest ih =>
      obtain ⟨req, t⟩ := head
      simp only [run]
      rw [ih, app_snd]

/-- Every `StatusResponse` body among the responses of a run has
`status = "ok"` and the pid of the process that served it. -/
theorem run_statusObj_fields (p : ProcessState) (trace : List (Request × ℚ)) :
    ∀ resp ∈ (run p trace).1, ∀ s : StatusResponse,
      resp.body = Body.statusObj s → s.status = "ok" ∧ s.pid = p.pid := by
  induction trace generalizing p with
  | nil =>
      intro resp hmem
      simp [run] at hmem
  | cons head rest ih =>
      obtain ⟨req, t⟩ := head
      intro resp hmem s hbody
      simp only [run, List.mem_cons] at hmem
      rcases hmem with hhead | htail
      · subst hhead
        unfold app at hbody
        split at hbody
        · simp [hello_work] at hbody
        · split at hbody
          · simp only [Body.statusObj.injEq] at hbody
            rw [← hbody]
            exact ⟨rfl, rfl⟩
          · simp at hbody
      · have h := ih (app p req t).2 resp htail s hbody
        rwa [app_snd] at h

/-- Claim C1: every `GET /status` request returns HTTP 200 with a body of the
`StatusResponse` shape, whose `status` field is the string `"ok"` (its
`uptime_seconds` is a rational and its `pid` an integer by construction). -/
theorem getStatus_returns_ok (p : ProcessState) (now : ℚ) :
    (app p ⟨"GET", "/status"⟩ now).1.statusCode = 200 ∧
    (app p ⟨"GET", "/status"⟩ now).1.body =
      Body.statusObj
        { status := "ok", uptime_seconds := now - p.start_time, pid := p.pid } := by
  constructor <;> simp [app, status]

/-- Claim C2: every `GET /` request returns HTTP 200 with body exactly the
fixed JSON object `{"message": "Hello, work"}`, and no state change. -/
theorem root_returns_hello (p : ProcessState) (now : ℚ) :
    app p ⟨"GET", "/"⟩ now =
      ({ statusCode := 200, body := Body.messageObj "Hello, work" }, p) := by
  simp [app, hello_work]

/-- Claim C3: for two successive `GET /status` calls in one process lifetime
(clock readings at or after process start and non-decreasing between the
calls), both uptime values are ≥ 0 and the later one is ≥ the earlier one. -/
theorem uptime_monotone (p : ProcessState) (t1 t2 : ℚ)
    (h0 : p.start_time ≤ t1) (h12 : t1 ≤ t2) :
    ∃ s1 s2 : StatusResponse,
      (app p ⟨"GET", "/status"⟩ t1).1.body = Body.statusObj s1 ∧
      (app p ⟨"GET", "/status"⟩ t2).1.body = Body.statusObj s2 ∧
      0 ≤ s1.uptime_seconds ∧ s1.uptime_seconds ≤ s2.uptime_seconds := by
  refine ⟨status p.start_time t1 p.pid, status p.start_time t2 p.pid,
    by simp [app], by simp [app], ?_, ?_⟩
  · simpa [status] using sub_nonneg.mpr h0
  · simpa [status] using sub_le_sub_right h12 p.start_time

/-- Claim C4: after serving any sequence of requests, a `GET /status` request
at clock reading `now` reports `uptime_seconds = now - t0` where `t0` is the
clock reading captured once at process start and never recomputed. -/
theorem uptime_eq_now_sub_start (t0 : ℚ) (pid : ℤ)
    (trace : List (Request × ℚ)) (now : ℚ) :
    (app (run (initProcess t0 pid) trace).2 ⟨"GET", "/status"⟩ now).1 =
      { statusCode := 200,
        body := Body.statusObj
          { status := "ok", uptime_seconds := now - t0, pid := pid } } := by
  rw [run_snd]
  simp [app, status, initProcess]

/-- Claim C5: every `StatusResponse` body among the responses of one process
lifetime carries the OS-assigned pid of that process, hence the same constant
value across all requests. -/
theorem pid_constant_in_run (t0 : ℚ) (pid : ℤ) (trace : List (Request × ℚ))
    (resp : Response) (s : StatusResponse)
    (hmem : resp ∈ (run (initProcess t0 pid) trace).1)
    (hbody : resp.body = Body.statusObj s) :
    s.pid = pid :=
  (run_statusObj_fields (initProcess t0 pid) trace resp hmem s hbody).2

/-- Witness for C5 at a concrete run: process started at clock 0 with pid 42,
one `GET /status` request at clock 5. -/
theorem pid_constant_in_run_witness :
    ({ status := "ok", uptime_seconds := 5, pid := 42 } : StatusResponse).pid = 42 :=
  pid_constant_in_run 0 42 [(⟨"GET", "/status"⟩, 5)]
    { statusCode := 200,
      body := Body.statusObj { status := "ok", uptime_seconds := 5, pid := 42 } }
    { status := "ok", uptime_seconds := 5, pid := 42 }
    (by simp [run, app, status, initProcess]) rfl

/-- Witness for C3 at a concrete input: process started at clock 0,
status calls at clocks 1 and 2. -/
theorem uptime_monotone_witness :
    ∃ s1 s2 : StatusResponse,
      (app ⟨0, 42⟩ ⟨"GET", "/status"⟩ 1).1.body = Body.statusObj s1 ∧
      (app ⟨0, 42⟩ ⟨"GET", "/status"⟩ 2).1.body = Body.statusObj s2 ∧
      0 ≤ s1.uptime_seconds ∧ s1.uptime_seconds ≤ s2.uptime_seconds :=
  uptime_monotone ⟨0, 42⟩ 1 2 (by norm_num) (by norm_num)

/-- Claim C6: a request matching neither `GET /` nor `GET /status` gets the
framework's HTTP 404 not-found response with no handler-defined body (so it
never answers 200; together with C1 and C2, exactly the two registered routes
answer 200). -/
theorem unknown_route_404 (p : ProcessState) (req : Request) (now : ℚ)
    (h1 : ¬(req.method = "GET" ∧ req.path = "/"))
    (h2 : ¬(req.method = "GET" ∧ req.path = "/status")) :
    app p req now = ({ statusCode := 404, body := Body.frameworkNotFound }, p) ∧
    (app p req now).1.statusCode ≠ 200 := by
  have happ : app p req now = ({ statusCode := 404, body := Body.frameworkNotFound }, p) := by
    unfold app
    rw [if_neg h1, if_neg h2]
  exact ⟨happ, by rw [happ]; simp⟩

/-- Witness for C6 at a concrete input: `POST /status` is not a registered
route and gets 404. -/
theorem unknown_route_404_witness :
    app ⟨0, 7⟩ ⟨"POST", "/status"⟩ 3 =
      ({ statusCode := 404, body := Body.frameworkNotFound }, ⟨0, 7⟩) ∧
    (app ⟨0, 7⟩ ⟨"POST", "/status"⟩ 3).1.statusCode ≠ 200 :=
  unknown_route_404 ⟨0, 7⟩ ⟨"POST", "/status"⟩ 3 (by simp) (by simp)

/-- Claim C7: repeated identical requests produce structurally identical
responses: `GET /` responses are equal outright, and two `GET /status`
responses agree on the status code and on every `StatusResponse` field except
`uptime_seconds` (substituting one uptime for the other makes them equal). -/
theorem idempotent_responses (p : ProcessState) (t1 t2 : ℚ) :
    (app p ⟨"GET", "/"⟩ t1).1 = (app p ⟨"GET", "/"⟩ t2).1 ∧
    ∃ s1 s2 : StatusResponse,
      (app p ⟨"GET", "/status"⟩ t1).1 =
        { statusCode := 200, body := Body.statusObj s1 } ∧
      (app p ⟨"GET", "/status"⟩ t2).1 =
        { statusCode := 200, body := Body.statusObj s2 } ∧
      { s1 with uptime_seconds := s2.uptime_seconds } = s2 := by
  refine ⟨by simp [app], status p.start_time t1 p.pid, status p.start_time t2 p.pid,
    by simp [app], by simp [app], rfl⟩

/-- Claim C8: no handler mutates process state: `start_time` is set once by
`initProcess` and every dispatch (both routes and the 404 fallback) and every
run of requests returns the process state unchanged. -/
theorem handlers_preserve_state (p : ProcessState) (req : Request) (now : ℚ)
    (trace : List (Request × ℚ)) (t0 : ℚ) (pid : ℤ) :
    (app p req now).2 = p ∧ (run p trace).2 = p ∧
    (run (initProcess t0 pid) trace).2.start_time = t0 :=
  ⟨app_snd p req now, run_snd p trace, by rw [run_snd]; rfl⟩

/-- Claim C9: the status computation is total: for every clock reading and
every process identifier the `GET /status` dispatch yields a `StatusResponse`
with HTTP 200 — there is no error branch. -/
theorem status_total (p : ProcessState) (now : ℚ) :
    ∃ s : StatusResponse,
      app p ⟨"GET", "/status"⟩ now =
        ({ statusCode := 200, body := Body.statusObj s }, p) :=
  ⟨status p.start_time now p.pid, by simp [app]⟩

/-- Claim C10: the `GET /` response is independent of all process state and
environment inputs: any two executions, with arbitrary start times, pids and
clock readings, produce equal responses. -/
theorem root_noninterference (p1 p2 : ProcessState) (t1 t2 : ℚ) :
    (app p1 ⟨"GET", "/"⟩ t1).1 = (app p2 ⟨"GET", "/"⟩ t2).1 := by
  simp [app]
